import Mathlib

/-!
Shallow embedding of the analytics core of the mood-tracker repository
(`AnalyticsService` in the backend service file): `getMoodHistory`,
`calculateMoodStats` and `calculateRiskScores`, together with the
spec-level descriptions they are checked against.

Numbers are modelled by `ℚ`.  JavaScript's `NaN` (which arises in this
code only from `0 / 0`) is modelled by `Option ℚ` with `none` standing
for `NaN`: every division in the source whose denominator can be zero
has a zero numerator in that case, so `none` faithfully covers the
`NaN` outcome and `Infinity` never arises on these paths.  A `NaN`
compared with anything is `false` in JavaScript, which the `ogt`/`olt`
helpers reproduce.  `Math.round x` is `⌊x + 1/2⌋` for all finite `x`,
which `jsRound2` reproduces for the two-decimal rounding idiom
`Math.round (x * 100) / 100`.
-/

/-- One normalized mood entry as consumed by `calculateRiskScores`:
`mood` is always present, and the auxiliary signals `energy`, `anxiety`,
`irritability` are optional (`entry.energy || 0` in the source defaults
a missing value to `0`).  The entry date is never read by the stats or
risk computations, so it is not carried here. -/
structure MoodEntry where
  mood : ℚ
  energy : Option ℚ
  anxiety : Option ℚ
  irritability : Option ℚ
  deriving DecidableEq

/-- One raw row of the spreadsheet-backed store, as consumed by
`getMoodHistory` (which reads `row[0]` as a date) and by
`calculateMoodStats` (which reads `parseFloat(row[1])`).  `date` is the
parsed timestamp of `new Date(row[0])`, `none` when the cell does not
parse (an *Invalid Date*, whose comparisons are all false); `mood` is
the result of `parseFloat(row[1])`, `none` when it is `NaN`. -/
structure Row where
  date : Option ℤ
  mood : Option ℚ
  deriving DecidableEq

/-- The source's `Math.round(x * 100) / 100` two-decimal rounding:
`Math.round` is floor of `x + 1/2` on finite doubles. -/
def jsRound2 (x : ℚ) : ℚ := (⌊x * 100 + 1 / 2⌋ : ℚ) / 100

/-- Division of a sum by a list length, `NaN`-aware: in the source these
denominators are `.length` values and are zero only for an empty list,
in which case the numerator (a `reduce` with initial value `0`) is also
`0`, so the JavaScript result is `0 / 0 = NaN`, i.e. `none`. -/
def jsDivN (a : ℚ) (n : ℕ) : Option ℚ := if n = 0 then none else some (a / n)

/-- General `NaN`-aware division for the regression slope: the
denominator `n·Σxx − (Σx)²` is zero exactly when the window has at most
one point, and the numerator is then also zero, so JavaScript yields
`0 / 0 = NaN`, i.e. `none`. -/
def jsDivQ (a b : ℚ) : Option ℚ := if b = 0 then none else some (a / b)

/-- `v > c` where `v` may be `NaN`: every comparison against `NaN` is
false in JavaScript. -/
def ogt (v : Option ℚ) (c : ℚ) : Bool :=
  match v with
  | some v => decide (c < v)
  | none => false

/-- `v < c` where `v` may be `NaN`. -/
def olt (v : Option ℚ) (c : ℚ) : Bool :=
  match v with
  | some v => decide (v < c)
  | none => false

/-- `Math.max(...moods)` on a non-empty list; `Math.max()` of an empty
spread is `-Infinity`, but every call site is guarded by a non-emptiness
check, so the `[]` case is an arbitrary placeholder. -/
def jsMax : List ℚ → ℚ
  | [] => 0
  | m :: ms => ms.foldl max m

/-- `Math.min(...moods)` on a non-empty list; same remark as `jsMax`. -/
def jsMin : List ℚ → ℚ
  | [] => 0
  | m :: ms => ms.foldl min m

/-- `calculateMoodStats`' result object. -/
structure StatsResult where
  average : ℚ
  highest : ℚ
  lowest : ℚ
  totalEntries : ℕ
  deriving DecidableEq

/-- The zero-value result returned for missing data. -/
def zeroStats : StatsResult := ⟨0, 0, 0, 0⟩

/-- `calculateMoodStats(moodData)` from the analytics service:
returns the zero object when the input has at most one row, otherwise
skips the first row (`moodData.slice(1)`, the header), parses the mood
cells (`map(row => parseFloat(row[1])).filter(mood => !isNaN(mood))`,
modelled by mapping to the `Option` mood cell and keeping the `some`s),
and computes count, two-decimal-rounded mean, max and min. -/
def calculateMoodStats (moodData : List Row) : StatsResult :=
  if moodData.length ≤ 1 then zeroStats
  else
    let dataRows := moodData.drop 1
    let moods := (dataRows.map (·.mood)).filterMap id
    if moods.length = 0 then zeroStats
    else
      let average : ℚ := moods.foldl (fun s m => s + m) 0 / (moods.length : ℚ)
      ⟨jsRound2 average, jsMax moods, jsMin moods, moods.length⟩

/-- `v < c` on possibly-invalid dates: a comparison against an
*Invalid Date* (`NaN` timestamp) is false. -/
def oltDate (v : Option ℤ) (c : ℤ) : Bool :=
  match v with
  | some v => decide (v < c)
  | none => false

/-- `v > c` on possibly-invalid dates. -/
def ogtDate (v : Option ℤ) (c : ℤ) : Bool :=
  match v with
  | some v => decide (c < v)
  | none => false

/-- The date-range predicate of `getMoodHistory`'s filter body for a
non-header row: the row is dropped when a `startDate` is supplied and
`rowDate < startDate`, or an `endDate` is supplied and
`rowDate > endDate`; a non-parseable row date (`none`) fails every
comparison and is therefore kept. -/
def keepRow (startDate endDate : Option ℤ) (row : Row) : Bool :=
  !(match startDate with
    | some sv => oltDate row.date sv
    | none => false) &&
  !(match endDate with
    | some ev => ogtDate row.date ev
    | none => false)

/-- `getMoodHistory(startDate, endDate)` applied to the raw rows read
from the store: when either bound is supplied it filters with
`(row, index) => index === 0 ? true : <date range test>` (the source
comment reads "Keep header row"), otherwise it returns the rows
unchanged. -/
def getMoodHistory (data : List Row) (startDate endDate : Option ℤ) : List Row :=
  if startDate.isSome || endDate.isSome then
    (data.enum.filter (fun p => p.1 == 0 || keepRow startDate endDate p.2)).map (·.2)
  else data

/-- The `last7Days` window of `calculateRiskScores`:
`series.slice(-7)`, i.e. the last `min(7, length)` entries. -/
def last7Window (series : List MoodEntry) : List MoodEntry :=
  series.drop (series.length - 7)

/-- The `sevenDayMeans` object of `calculateRiskScores`: for each of
mood, energy, anxiety, irritability, `reduce`-sum over `last7Days`
(missing auxiliary values defaulted to `0`) divided by
`last7Days.length`, each rounded to two decimals at the return site. -/
structure SevenDayMeans where
  mood : Option ℚ
  energy : Option ℚ
  anxiety : Option ℚ
  irritability : Option ℚ
  deriving DecidableEq

/-- Lines building `moodMean` … `irritabilityMean` and the rounded
`sevenDayMeans` return object of `calculateRiskScores`. -/
def sevenDayMeansOf (series : List MoodEntry) : SevenDayMeans :=
  let last7Days := last7Window series
  let moodMean := jsDivN (last7Days.foldl (fun s e => s + e.mood) 0) last7Days.length
  let energyMean :=
    jsDivN (last7Days.foldl (fun s e => s + e.energy.getD 0) 0) last7Days.length
  let anxietyMean :=
    jsDivN (last7Days.foldl (fun s e => s + e.anxiety.getD 0) 0) last7Days.length
  let irritabilityMean :=
    jsDivN (last7Days.foldl (fun s e => s + e.irritability.getD 0) 0) last7Days.length
  ⟨moodMean.map jsRound2, energyMean.map jsRound2,
    anxietyMean.map jsRound2, irritabilityMean.map jsRound2⟩

/-- `sumX` of `calculateRiskScores`: the `reduce`-sum of the index
sequence `x = last7Days.map((_, index) => index)`, i.e. of `0 … n−1`. -/
def sumIdx (n : ℕ) : ℚ := (List.range n).foldl (fun (s : ℚ) (i : ℕ) => s + (i : ℚ)) 0

/-- `sumXX` of `calculateRiskScores`: the `reduce`-sum of the squared
indices `0 … n−1`. -/
def sumIdxSq (n : ℕ) : ℚ :=
  (List.range n).foldl (fun (s : ℚ) (i : ℕ) => s + (i : ℚ) * (i : ℚ)) 0

/-- `sumXY` of `calculateRiskScores`: the `reduce`-sum of
`x[i] * y[i]`, taken through the index-paired moods (`x[i] = i`). -/
def sumXY (ys : List ℚ) : ℚ :=
  ys.enum.foldl (fun (s : ℚ) (p : ℕ × ℚ) => s + (p.1 : ℚ) * p.2) 0

/-- The 7-day linear-regression `slope` of `calculateRiskScores`:
`x` is the index sequence `0 … n−1` over the window
(`last7Days.map((_, index) => index)`), `y` the window moods, and
`slope = (n·Σxy − Σx·Σy) / (n·Σxx − (Σx)²)`.  The
source has no guard on the denominator: for a window of at most one
point it evaluates `0 / 0 = NaN`, modelled by `none`. -/
def slopeOf (series : List MoodEntry) : Option ℚ :=
  let last7Days := last7Window series
  let y := last7Days.map (·.mood)
  let n : ℚ := last7Days.length
  let sumY := y.foldl (fun s v => s + v) 0
  jsDivQ (n * sumXY y - sumIdx last7Days.length * sumY)
    (n * sumIdxSq last7Days.length - sumIdx last7Days.length * sumIdx last7Days.length)

/-- The boolean `riskFlags` of `calculateRiskScores`, evaluated on the
unrounded slope and the data point's own (defaulted) fields. -/
structure RiskFlags where
  hypomania : Bool
  depression : Bool
  deriving DecidableEq

/-- The `hypomaniaRisk` / `depressionRisk` conjunctions of
`calculateRiskScores` (`dataPoint.mood >= 4 && slope > 0.1 && …` and
`dataPoint.mood <= -3 && slope < -0.1 && …`); `NaN` slope comparisons
are false. -/
def riskFlagsOf (dataPoint : MoodEntry) (series : List MoodEntry) : RiskFlags :=
  let slope := slopeOf series
  { hypomania :=
      decide (4 ≤ dataPoint.mood) && ogt slope (1 / 10) &&
      decide (4 ≤ dataPoint.energy.getD 0) && decide (dataPoint.anxiety.getD 0 ≤ 3)
    depression :=
      decide (dataPoint.mood ≤ -3) && olt slope (-(1 / 10)) &&
      decide (dataPoint.energy.getD 0 ≤ 2) &&
      (decide (5 ≤ dataPoint.anxiety.getD 0) || decide (5 ≤ dataPoint.irritability.getD 0)) }

/-- The z-score block of `calculateRiskScores`: population mean and
variance of the mood values of the *entire* series (`reduce`-sums over
`allMoods`), `moodStdDev = Math.sqrt(moodVariance)`, and
`moodZScore = moodStdDev > 0 ? (dataPoint.mood − mean) / moodStdDev : 0`.
For an empty series both `reduce`-sums are `0` and both divisions are
`0 / 0 = NaN` (`none`); `Math.sqrt NaN = NaN` and `NaN > 0` is false, so
the guard falls through to `0`, which the `match` fall-through mirrors.
In the variance fold the source subtracts `moodHistoryMean`, a number
whenever the series is non-empty; the `getD 0` default is only taken on
the empty series, where the fold body never runs. -/
noncomputable def moodZScoreOf (dataPoint : MoodEntry) (series : List MoodEntry) : ℝ :=
  let allMoods := series.map (·.mood)
  let moodHistoryMean := jsDivN (allMoods.foldl (fun s m => s + m) 0) allMoods.length
  let moodVariance :=
    jsDivN (allMoods.foldl (fun s m => s + (m - moodHistoryMean.getD 0) ^ 2) 0)
      allMoods.length
  match moodVariance, moodHistoryMean with
  | some v, some μ =>
      if 0 < Real.sqrt (v : ℝ) then (((dataPoint.mood : ℚ) : ℝ) - (μ : ℝ)) / Real.sqrt (v : ℝ)
      else 0
  | _, _ => 0

/-- Two-decimal rounding on the real-valued z-score
(`Math.round(moodZScore * 100) / 100`). -/
noncomputable def jsRound2R (x : ℝ) : ℝ := (⌊x * 100 + 1 / 2⌋ : ℝ) / 100

/-- `calculateRiskScores`' result object. -/
structure RiskAssessment where
  sevenDayMeans : SevenDayMeans
  moodZScore : ℝ
  moodTrend : Option ℚ
  riskFlags : RiskFlags

/-- `calculateRiskScores(dataPoint, series)`: the returned object,
assembling the rounded seven-day means, the rounded z-score, the
rounded trend slope (`Math.round(NaN) = NaN`) and the risk flags.
The function body is pure arithmetic on in-memory arrays: no statement
in it can throw, so the surrounding `try`/`catch` (which only rethrows)
never fires and the function always returns normally. -/
noncomputable def calculateRiskScores (dataPoint : MoodEntry) (series : List MoodEntry) :
    RiskAssessment :=
  { sevenDayMeans := sevenDayMeansOf series
    moodZScore := jsRound2R (moodZScoreOf dataPoint series)
    moodTrend := (slopeOf series).map jsRound2
    riskFlags := riskFlagsOf dataPoint series }

/-! Spec-side definitions, written from the specification's wording, to
compare the source functions against. -/

/-- Spec wording: the arithmetic mean of a list of values. -/
def listMean (l : List ℚ) : ℚ := l.sum / l.length

/-- Spec wording: the numeric mood values of a series of rows
("count of entries with a numeric mood value"). -/
def numericMoods (rows : List Row) : List ℚ := (rows.map (·.mood)).filterMap id

/-- Spec wording: population mean `μ` of the mood values of the entire
series. -/
def popMean (series : List MoodEntry) : ℚ := listMean (series.map (·.mood))

/-- Spec wording: population variance of the mood values of the entire
series. -/
def popVariance (series : List MoodEntry) : ℚ :=
  listMean (series.map (fun e => (e.mood - popMean series) ^ 2))

/-- Spec wording: population standard deviation `σ` of the mood values
of the entire series. -/
noncomputable def popStdDev (series : List MoodEntry) : ℝ :=
  Real.sqrt ((popVariance series : ℚ) : ℝ)

/-- Spec wording: the ordinary least-squares slope of mood against
index `0 … n−1` over the window `W` of the last `min(7, len)` entries:
`slope = (n·Σxy − Σx·Σy) / (n·Σxx − (Σx)²)`. -/
def olsSlope (series : List MoodEntry) : ℚ :=
  let w := series.rtake 7
  let ys := w.map (·.mood)
  let n : ℚ := w.length
  let sx := ((List.range w.length).map (fun (i : ℕ) => (i : ℚ))).sum
  let sy := ys.sum
  let sxy := (ys.enum.map (fun (p : ℕ × ℚ) => (p.1 : ℚ) * p.2)).sum
  let sxx := ((List.range w.length).map (fun (i : ℕ) => (i : ℚ) * i)).sum
  (n * sxy - sx * sy) / (n * sxx - sx * sx)

/-! Helper lemmas. -/

/-- A `reduce((s, a) => s + f(a), init)` is `init` plus the sum of the
mapped list. -/
theorem foldl_add_map {α : Type} (f : α → ℚ) :
    ∀ (l : List α) (init : ℚ), l.foldl (fun s a => s + f a) init = init + (l.map f).sum := by
  intro l
  induction l with
  | nil => intro init; simp
  | cons a t ih => intro init; simp [ih, add_assoc]

/-- Special case of `foldl_add_map` for a plain sum of rationals. -/
theorem foldl_add_id :
    ∀ (l : List ℚ), l.foldl (fun s m => s + m) 0 = l.sum := by
  intro l
  have h := foldl_add_map (fun m : ℚ => m) l 0
  simpa using h

/-- The running maximum of a fold belongs to the seeded list. -/
theorem foldl_max_mem : ∀ (ms : List ℚ) (m : ℚ), ms.foldl max m ∈ m :: ms := by
  intro ms
  induction ms with
  | nil => intro m; simp
  | cons a t ih =>
    intro m
    rw [List.foldl_cons]
    rcases List.mem_cons.1 (ih (max m a)) with h' | h'
    · rw [h']
      rcases max_choice m a with hm | hm
      · rw [hm]; exact List.mem_cons_self _ _
      · rw [hm]; exact List.mem_cons.2 (Or.inr (List.mem_cons_self _ _))
    · exact List.mem_cons.2 (Or.inr (List.mem_cons.2 (Or.inr h')))

/-- The running maximum of a fold bounds every element of the seeded
list. -/
theorem le_foldl_max : ∀ (ms : List ℚ) (m : ℚ), ∀ x ∈ m :: ms, x ≤ ms.foldl max m := by
  intro ms
  induction ms with
  | nil => intro m x hx; simp at hx; simp [hx]
  | cons a t ih =>
    intro m x hx
    rw [List.foldl_cons]
    rcases List.mem_cons.1 hx with h' | h'
    · subst h'
      exact le_trans (le_max_left x a) (ih (max x a) _ (List.mem_cons_self _ _))
    · rcases List.mem_cons.1 h' with h'' | h''
      · subst h''
        exact le_trans (le_max_right m x) (ih (max m x) _ (List.mem_cons_self _ _))
      · exact ih (max m a) x (List.mem_cons.2 (Or.inr h''))

/-- The running minimum of a fold belongs to the seeded list. -/
theorem foldl_min_mem : ∀ (ms : List ℚ) (m : ℚ), ms.foldl min m ∈ m :: ms := by
  intro ms
  induction ms with
  | nil => intro m; simp
  | cons a t ih =>
    intro m
    rw [List.foldl_cons]
    rcases List.mem_cons.1 (ih (min m a)) with h' | h'
    · rw [h']
      rcases min_choice m a with hm | hm
      · rw [hm]; exact List.mem_cons_self _ _
      · rw [hm]; exact List.mem_cons.2 (Or.inr (List.mem_cons_self _ _))
    · exact List.mem_cons.2 (Or.inr (List.mem_cons.2 (Or.inr h')))

/-- The running minimum of a fold is below every element of the seeded
list. -/
theorem foldl_min_le : ∀ (ms : List ℚ) (m : ℚ), ∀ x ∈ m :: ms, ms.foldl min m ≤ x := by
  intro ms
  induction ms with
  | nil => intro m x hx; simp at hx; simp [hx]
  | cons a t ih =>
    intro m x hx
    rw [List.foldl_cons]
    rcases List.mem_cons.1 hx with h' | h'
    · subst h'
      exact le_trans (ih (min x a) _ (List.mem_cons_self _ _)) (min_le_left x a)
    · rcases List.mem_cons.1 h' with h'' | h''
      · subst h''
        exact le_trans (ih (min m x) _ (List.mem_cons_self _ _)) (min_le_right m x)
      · exact ih (min m a) x (List.mem_cons.2 (Or.inr h''))

/-- `jsMax` is the unique element that belongs to the list and bounds
it from above. -/
theorem jsMax_eq_of (l : List ℚ) (m : ℚ) (hmem : m ∈ l) (hub : ∀ x ∈ l, x ≤ m) :
    jsMax l = m := by
  cases l with
  | nil => exact absurd hmem (List.not_mem_nil m)
  | cons a t => exact le_antisymm (hub _ (foldl_max_mem t a)) (le_foldl_max t a m hmem)

/-- `jsMin` is the unique element that belongs to the list and bounds
it from below. -/
theorem jsMin_eq_of (l : List ℚ) (m : ℚ) (hmem : m ∈ l) (hlb : ∀ x ∈ l, m ≤ x) :
    jsMin l = m := by
  cases l with
  | nil => exact absurd hmem (List.not_mem_nil m)
  | cons a t => exact le_antisymm (foldl_min_le t a m hmem) (hlb _ (foldl_min_mem t a))

/-- `jsMax` is invariant under permutation of a non-empty list. -/
theorem jsMax_perm {l₁ l₂ : List ℚ} (h : l₁.Perm l₂) (hne : l₁ ≠ []) :
    jsMax l₁ = jsMax l₂ := by
  cases l₁ with
  | nil => exact absurd rfl hne
  | cons a t =>
    exact (jsMax_eq_of l₂ (jsMax (a :: t)) (h.mem_iff.1 (foldl_max_mem t a))
      (fun x hx => le_foldl_max t a x (h.mem_iff.2 hx))).symm

/-- `jsMin` is invariant under permutation of a non-empty list. -/
theorem jsMin_perm {l₁ l₂ : List ℚ} (h : l₁.Perm l₂) (hne : l₁ ≠ []) :
    jsMin l₁ = jsMin l₂ := by
  cases l₁ with
  | nil => exact absurd rfl hne
  | cons a t =>
    exact (jsMin_eq_of l₂ (jsMin (a :: t)) (h.mem_iff.1 (foldl_min_mem t a))
      (fun x hx => foldl_min_le t a x (h.mem_iff.2 hx))).symm

/-- Evaluation rule for the two-decimal rounding: if `z` brackets
`x·100 + 1/2` from below within distance one, then
`jsRound2 x = z/100`. -/
theorem jsRound2_of_bounds (x : ℚ) (z : ℤ) (h1 : (z : ℚ) ≤ x * 100 + 1 / 2)
    (h2 : x * 100 + 1 / 2 < z + 1) : jsRound2 x = (z : ℚ) / 100 := by
  unfold jsRound2
  rw [Int.floor_eq_iff.2 ⟨h1, h2⟩]

/-! Theorems for the claims. -/

/-- C6: on an empty series `calculateMoodStats` returns the defined
zero-value result `{average: 0, highest: 0, lowest: 0, totalEntries: 0}`
rather than failing. -/
theorem c6_empty_series_zero_stats : calculateMoodStats [] = ⟨0, 0, 0, 0⟩ := rfl

/-- C10: `calculateMoodStats` unconditionally treats the first row as a
header: a single row (no header) yields the zero-value result and that
entry is never counted, and on any input the first row's content is
irrelevant to the result, so for headerless input the first data entry
is excluded from all statistics. -/
theorem c10_header_always_discarded :
    (∀ row : Row, calculateMoodStats [row] = ⟨0, 0, 0, 0⟩) ∧
    (∀ (r r' : Row) (rows : List Row),
      calculateMoodStats (r :: rows) = calculateMoodStats (r' :: rows)) := by
  constructor
  · intro row; rfl
  · intro r r' rows
    simp [calculateMoodStats]

/-- C8 counterexample: the claim says the header row is never present
in the series returned by `getMoodHistory`, but with a date range
supplied the filter's `index === 0` branch explicitly keeps the header
row (source comment "Keep header row"): here the header (first row,
unparseable date) survives a `startDate` filter that discards nothing
else. -/
theorem c8_header_excluded_counterexample :
    (⟨none, none⟩ : Row) ∈
      getMoodHistory [⟨none, none⟩, ⟨some 150, some 5⟩] (some 100) none := by
  decide

/-- C8 amended: `getMoodHistory` always keeps the first (header) row of
the underlying table in first position, whatever date filtering is
requested; the header is only skipped later, by `calculateMoodStats`. -/
theorem c8_header_always_kept :
    ∀ (h : Row) (rest : List Row) (s e : Option ℤ),
      (getMoodHistory (h :: rest) s e).head? = some h := by
  intro h rest s e
  unfold getMoodHistory
  split
  · simp [List.enum_cons, List.filter_cons]
  · rfl

/-- C7: `calculateMoodStats` is invariant under any permutation of the
data rows when the header row stays in first position. -/
theorem c7_stats_perm_invariant :
    ∀ (hdr : Row) (rs₁ rs₂ : List Row), rs₁.Perm rs₂ →
      calculateMoodStats (hdr :: rs₁) = calculateMoodStats (hdr :: rs₂) := by
  intro hdr rs₁ rs₂ hp
  have hm : ((rs₁.map (·.mood)).filterMap id).Perm ((rs₂.map (·.mood)).filterMap id) :=
    (hp.map (·.mood)).filterMap id
  simp only [calculateMoodStats, List.length_cons, List.drop_succ_cons, List.drop_zero]
  rw [hp.length_eq]
  split
  · rfl
  · rw [hm.length_eq]
    split
    · rfl
    · next hlen =>
      have hne : (rs₁.map (·.mood)).filterMap id ≠ [] := by
        intro hnil
        rw [hnil] at hm
        rw [List.length_eq_zero.2 hm.symm.eq_nil] at hlen
        exact hlen rfl
      rw [foldl_add_id, foldl_add_id, hm.sum_eq, jsMax_perm hm hne, jsMin_perm hm hne]

/-- Reduction of `calculateMoodStats` on a header plus rows with at
least one numeric mood: the result is built from the filtered numeric
moods of the data rows. -/
theorem calculateMoodStats_cons (hdr : Row) (rows : List Row)
    (hne : numericMoods rows ≠ []) :
    calculateMoodStats (hdr :: rows) =
      ⟨jsRound2 (listMean (numericMoods rows)), jsMax (numericMoods rows),
        jsMin (numericMoods rows), (numericMoods rows).length⟩ := by
  have hrows : rows ≠ [] := by
    intro h
    rw [h] at hne
    exact hne rfl
  have h1 : ¬(rows.length + 1 ≤ 1) := by
    have := List.length_pos.2 hrows
    omega
  have h2 : ¬((rows.map (·.mood)).filterMap id).length = 0 := by
    intro h0
    exact hne (List.length_eq_zero.1 h0)
  simp only [calculateMoodStats, List.length_cons, List.drop_succ_cons, List.drop_zero,
    h1, h2, if_false]
  rw [foldl_add_id]
  rfl

/-- C5: on a non-empty series (header plus data rows with at least one
numeric mood), `calculateMoodStats` counts exactly the rows with a
numeric mood, averages them (rounded to two decimals), and reports the
unrounded max and min of the same filtered set; on moods
`[1, 2, 3, 3, 4]` it yields
`{average: 2.6, highest: 4, lowest: 1, totalEntries: 5}`. -/
theorem c5_stats_values :
    (∀ (hdr : Row) (rows : List Row), numericMoods rows ≠ [] →
      (calculateMoodStats (hdr :: rows)).totalEntries = (numericMoods rows).length ∧
      (calculateMoodStats (hdr :: rows)).average = jsRound2 (listMean (numericMoods rows)) ∧
      (calculateMoodStats (hdr :: rows)).highest ∈ numericMoods rows ∧
      (∀ x ∈ numericMoods rows, x ≤ (calculateMoodStats (hdr :: rows)).highest) ∧
      (calculateMoodStats (hdr :: rows)).lowest ∈ numericMoods rows ∧
      (∀ x ∈ numericMoods rows, (calculateMoodStats (hdr :: rows)).lowest ≤ x)) ∧
    calculateMoodStats
        [⟨none, none⟩, ⟨none, some 1⟩, ⟨none, some 2⟩, ⟨none, some 3⟩, ⟨none, some 3⟩,
          ⟨none, some 4⟩] =
      ⟨13 / 5, 4, 1, 5⟩ := by
  constructor
  · intro hdr rows hne
    rw [calculateMoodStats_cons hdr rows hne]
    refine ⟨rfl, rfl, ?_, ?_, ?_, ?_⟩
    · cases hcase : numericMoods rows with
      | nil => exact absurd hcase hne
      | cons m ms => exact foldl_max_mem ms m
    · intro x hx
      cases hcase : numericMoods rows with
      | nil => exact absurd hcase hne
      | cons m ms => exact le_foldl_max ms m x (hcase ▸ hx)
    · cases hcase : numericMoods rows with
      | nil => exact absurd hcase hne
      | cons m ms => exact foldl_min_mem ms m
    · intro x hx
      cases hcase : numericMoods rows with
      | nil => exact absurd hcase hne
      | cons m ms => exact foldl_min_le ms m x (hcase ▸ hx)
  · rw [calculateMoodStats_cons _ _ (by decide)]
    rw [show numericMoods
        [(⟨none, some 1⟩ : Row), ⟨none, some 2⟩, ⟨none, some 3⟩, ⟨none, some 3⟩,
          ⟨none, some 4⟩] = [1, 2, 3, 3, 4] from rfl]
    have hmean : listMean [1, 2, 3, 3, 4] = 13 / 5 := by
      simp [listMean]
      norm_num
    have havg : jsRound2 (13 / 5) = (13 : ℚ) / 5 := by
      rw [jsRound2_of_bounds (13 / 5) 260 (by norm_num) (by norm_num)]
      norm_num
    have hmax : jsMax [1, 2, 3, 3, 4] = 4 := by
      refine jsMax_eq_of _ _ (by norm_num) ?_
      intro x hx
      rcases List.mem_cons.1 hx with rfl | hx <;>
        [norm_num;
          (rcases List.mem_cons.1 hx with rfl | hx <;>
            [norm_num;
              (rcases List.mem_cons.1 hx with rfl | hx <;>
                [norm_num;
                  (rcases List.mem_cons.1 hx with rfl | hx <;>
                    [norm_num;
                      (rcases List.mem_cons.1 hx with rfl | hx <;>
                        [norm_num; exact absurd hx (List.not_mem_nil x)])])])])]
    have hmin : jsMin [1, 2, 3, 3, 4] = 1 := by
      refine jsMin_eq_of _ _ (by norm_num) ?_
      intro x hx
      rcases List.mem_cons.1 hx with rfl | hx <;>
        [norm_num;
          (rcases List.mem_cons.1 hx with rfl | hx <;>
            [norm_num;
              (rcases List.mem_cons.1 hx with rfl | hx <;>
                [norm_num;
                  (rcases List.mem_cons.1 hx with rfl | hx <;>
                    [norm_num;
                      (rcases List.mem_cons.1 hx with rfl | hx <;>
                        [norm_num; exact absurd hx (List.not_mem_nil x)])])])])]
    rw [hmean, havg, hmax, hmin]
    rfl

/-- The window of `calculateRiskScores` is non-empty whenever the
series is. -/
theorem last7Window_length_ne_zero {S : List MoodEntry} (hS : S ≠ []) :
    (last7Window S).length ≠ 0 := by
  have hpos := List.length_pos.2 hS
  simp only [last7Window, List.length_drop]
  omega

/-- `jsDivN` on a non-zero denominator. -/
theorem jsDivN_of_ne {n : ℕ} (h : n ≠ 0) (a : ℚ) : jsDivN a n = some (a / n) := by
  simp [jsDivN, h]

/-- One rounded seven-day mean component: the fold-and-divide of the
source equals the rounded arithmetic mean of the mapped window. -/
theorem meanComp (f : MoodEntry → ℚ) (w : List MoodEntry) (h : w.length ≠ 0) :
    (jsDivN (w.foldl (fun s e => s + f e) 0) w.length).map jsRound2 =
      some (jsRound2 (listMean (w.map f))) := by
  rw [foldl_add_map f w 0, zero_add, jsDivN_of_ne h]
  simp [listMean, List.length_map]

/-- C4: for a non-empty series the `sevenDayMeans` of
`calculateRiskScores` are the arithmetic means of mood, energy, anxiety
and irritability over the window of the last `min(7, len)` entries,
missing auxiliary values treated as `0`, each rounded to two decimal
places. -/
theorem c4_seven_day_means :
    ∀ (p : MoodEntry) (S : List MoodEntry), S ≠ [] →
      (calculateRiskScores p S).sevenDayMeans =
        ⟨some (jsRound2 (listMean ((S.rtake 7).map (·.mood)))),
          some (jsRound2 (listMean ((S.rtake 7).map (fun e => e.energy.getD 0)))),
          some (jsRound2 (listMean ((S.rtake 7).map (fun e => e.anxiety.getD 0)))),
          some (jsRound2 (listMean ((S.rtake 7).map (fun e => e.irritability.getD 0))))⟩ := by
  intro p S hS
  have hlen : (last7Window S).length ≠ 0 := last7Window_length_ne_zero hS
  show sevenDayMeansOf S = _
  simp only [sevenDayMeansOf]
  rw [meanComp (fun e => e.mood) _ hlen, meanComp (fun e => e.energy.getD 0) _ hlen,
    meanComp (fun e => e.anxiety.getD 0) _ hlen,
    meanComp (fun e => e.irritability.getD 0) _ hlen]
  rfl

/-- Closed form of `sumIdx`: the sum of `0 … n−1` is `(n² − n)/2`. -/
theorem sumIdx_eq (n : ℕ) : sumIdx n = ((n : ℚ) ^ 2 - n) / 2 := by
  induction n with
  | zero => simp [sumIdx]
  | succ k ih =>
    rw [sumIdx, List.range_succ, List.foldl_append]
    rw [show (List.range k).foldl (fun (s : ℚ) (i : ℕ) => s + (i : ℚ)) 0 = sumIdx k from rfl]
    rw [List.foldl_cons, List.foldl_nil, ih]
    push_cast
    ring

/-- Closed form of `sumIdxSq`: the sum of `0², …, (n−1)²` is
`(2n³ − 3n² + n)/6`. -/
theorem sumIdxSq_eq (n : ℕ) :
    sumIdxSq n = (2 * (n : ℚ) ^ 3 - 3 * (n : ℚ) ^ 2 + n) / 6 := by
  induction n with
  | zero => simp [sumIdxSq]
  | succ k ih =>
    rw [sumIdxSq, List.range_succ, List.foldl_append]
    rw [show (List.range k).foldl (fun (s : ℚ) (i : ℕ) => s + (i : ℚ) * (i : ℚ)) 0
        = sumIdxSq k from rfl]
    rw [List.foldl_cons, List.foldl_nil, ih]
    push_cast
    ring

/-- The regression denominator `n·Σxx − (Σx)²` is positive as soon as
the window has at least two points. -/
theorem slope_den_pos {n : ℕ} (h : 2 ≤ n) :
    0 < (n : ℚ) * sumIdxSq n - sumIdx n * sumIdx n := by
  rw [sumIdx_eq, sumIdxSq_eq]
  have h' : (2 : ℚ) ≤ (n : ℚ) := by exact_mod_cast h
  have hkey : (n : ℚ) * ((2 * (n : ℚ) ^ 3 - 3 * (n : ℚ) ^ 2 + n) / 6) -
      ((n : ℚ) ^ 2 - n) / 2 * (((n : ℚ) ^ 2 - n) / 2) =
      (n : ℚ) ^ 2 * ((n : ℚ) ^ 2 - 1) / 12 := by ring
  rw [hkey]
  have h4 : (4 : ℚ) ≤ (n : ℚ) ^ 2 := by nlinarith [h']
  nlinarith [h4]

/-- The regression slope of a single-entry series is `0 / 0`, i.e.
`NaN`: the source has no guard for `n = 1`. -/
theorem slopeOf_singleton (e : MoodEntry) : slopeOf [e] = none := by
  simp only [slopeOf, last7Window, List.length_drop, List.length_cons, List.length_nil]
  norm_num [sumIdx_eq, sumIdxSq_eq, jsDivQ]

/-- `jsRound2` is the identity on whole numbers (cast from `ℤ`). -/
theorem jsRound2_int (z : ℤ) : jsRound2 ((z : ℚ)) = (z : ℚ) := by
  have h : jsRound2 ((z : ℚ)) = ((100 * z : ℤ) : ℚ) / 100 := by
    refine jsRound2_of_bounds _ _ ?_ ?_
    · push_cast
      linarith
    · push_cast
      linarith
  rw [h]
  push_cast
  ring

/-- C3 (claim side, refuted by the code): on a single-entry series the
source's unguarded least-squares slope evaluates `0 / 0 = NaN`, so
`moodTrend` is `NaN` (`none`), not the claimed `0`; the `sevenDayMeans`
half of the claim does hold — they are the entry's own values. -/
theorem c3_single_entry_trend_is_nan :
    (calculateRiskScores ⟨5, some 3, some 2, some 1⟩ [⟨5, some 3, some 2, some 1⟩]).moodTrend
        = none ∧
    (calculateRiskScores ⟨5, some 3, some 2, some 1⟩
          [⟨5, some 3, some 2, some 1⟩]).sevenDayMeans
        = ⟨some 5, some 3, some 2, some 1⟩ := by
  constructor
  · show (slopeOf [⟨5, some 3, some 2, some 1⟩]).map jsRound2 = none
    rw [slopeOf_singleton]
    rfl
  · show sevenDayMeansOf [⟨5, some 3, some 2, some 1⟩] = _
    simp only [sevenDayMeansOf, last7Window, List.length_cons, List.length_nil, List.drop,
      List.foldl_cons, List.foldl_nil]
    norm_num [jsDivN]
    refine ⟨?_, ?_, ?_, ?_⟩
    · exact (show ((5 : ℤ) : ℚ) = 5 by norm_num) ▸ jsRound2_int 5
    · exact (show ((3 : ℤ) : ℚ) = 3 by norm_num) ▸ jsRound2_int 3
    · exact (show ((2 : ℤ) : ℚ) = 2 by norm_num) ▸ jsRound2_int 2
    · exact (show ((1 : ℤ) : ℚ) = 1 by norm_num) ▸ jsRound2_int 1

/-- The regression slope of the empty series is also `0 / 0 = NaN`. -/
theorem slopeOf_nil : slopeOf [] = none := by
  simp only [slopeOf, last7Window, List.length_nil, List.drop_nil]
  norm_num [sumIdx_eq, sumIdxSq_eq, jsDivQ]

/-- `⌊x·100 + 1/2⌋ = 0` at `x = 0`, so the rounded z-score of `0` is
`0`. -/
theorem jsRound2R_zero : jsRound2R 0 = 0 := by
  unfold jsRound2R
  rw [show (0 : ℝ) * 100 + 1 / 2 = 1 / 2 by norm_num]
  rw [Int.floor_eq_zero_iff.2 (by norm_num [Set.mem_Ico])]
  norm_num

/-- C9 (claim side, refuted by the code): `calculateRiskScores` applied
to an empty series does not fail — `reduce` with an initial value and
plain arithmetic never throw in JavaScript, so the `try`/`catch` never
fires — and instead returns a normal record whose means and trend are
`NaN` (`none`) and whose `moodZScore` is a genuine `0` (the `σ > 0`
guard is false for a `NaN` standard deviation), indistinguishable from
a computed zero. -/
theorem c9_empty_series_silent_nan :
    calculateRiskScores ⟨5, some 3, some 2, some 1⟩ [] =
      ⟨⟨none, none, none, none⟩, 0, none, ⟨false, false⟩⟩ := by
  have hflags : riskFlagsOf ⟨5, some 3, some 2, some 1⟩ [] = ⟨false, false⟩ := by
    simp [riskFlagsOf, slopeOf_nil, ogt, olt]
  have hz : moodZScoreOf ⟨5, some 3, some 2, some 1⟩ [] = 0 := by
    simp [moodZScoreOf, jsDivN]
  unfold calculateRiskScores
  rw [hflags, hz, jsRound2R_zero, slopeOf_nil]
  rfl

/-- `sumIdx` as a mapped list sum. -/
theorem sumIdx_eq_sum (n : ℕ) :
    sumIdx n = ((List.range n).map (fun (i : ℕ) => (i : ℚ))).sum := by
  rw [sumIdx, foldl_add_map (fun (i : ℕ) => (i : ℚ)) (List.range n) 0, zero_add]

/-- `sumIdxSq` as a mapped list sum. -/
theorem sumIdxSq_eq_sum (n : ℕ) :
    sumIdxSq n = ((List.range n).map (fun (i : ℕ) => (i : ℚ) * i)).sum := by
  rw [sumIdxSq, foldl_add_map (fun (i : ℕ) => (i : ℚ) * i) (List.range n) 0, zero_add]

/-- `sumXY` as a mapped list sum. -/
theorem sumXY_eq_sum (ys : List ℚ) :
    sumXY ys = (ys.enum.map (fun (p : ℕ × ℚ) => (p.1 : ℚ) * p.2)).sum := by
  rw [sumXY, foldl_add_map (fun p : ℕ × ℚ => (p.1 : ℚ) * p.2) ys.enum 0, zero_add]

/-- On a series of at least two entries the source's slope is a genuine
number and agrees with the spec's least-squares formula. -/
theorem slopeOf_eq_olsSlope {S : List MoodEntry} (h2 : 2 ≤ S.length) :
    slopeOf S = some (olsSlope S) := by
  have hn2 : 2 ≤ (last7Window S).length := by
    simp only [last7Window, List.length_drop]
    omega
  have hden := ne_of_gt (slope_den_pos hn2)
  simp only [slopeOf]
  rw [jsDivQ, if_neg hden]
  congr 1
  simp only [olsSlope, List.rtake, last7Window]
  rw [sumIdx_eq_sum, sumIdxSq_eq_sum, sumXY_eq_sum, foldl_add_id]

/-- Evaluation scheme for `slopeOf` on a concrete series: once the
window moods and window length are known and the denominator is
non-zero, the slope is the explicit quotient. -/
theorem slopeOf_of_eval (S : List MoodEntry) (ys : List ℚ) (n : ℕ)
    (hw : (last7Window S).map (·.mood) = ys) (hn : (last7Window S).length = n)
    (hden : (n : ℚ) * sumIdxSq n - sumIdx n * sumIdx n ≠ 0) :
    slopeOf S = some (((n : ℚ) * sumXY ys - sumIdx n * ys.sum) /
      ((n : ℚ) * sumIdxSq n - sumIdx n * sumIdx n)) := by
  simp only [slopeOf]
  rw [hw, hn, foldl_add_id, jsDivQ, if_neg hden]

/-- `Σ x·y` for the increasing scenario moods. -/
theorem sumXY_scenario_up : sumXY [2, 3, 5, 6, 7, 8, 9] = 153 := by
  rw [sumXY]
  rw [show ([2, 3, 5, 6, 7, 8, 9] : List ℚ).enum
      = [(0, 2), (1, 3), (2, 5), (3, 6), (4, 7), (5, 8), (6, 9)] from rfl]
  norm_num [List.foldl]

/-- `Σ x·y` for the decreasing scenario moods. -/
theorem sumXY_scenario_down : sumXY [0, -1, -2, -3, -4, -5, -6] = -91 := by
  rw [sumXY]
  rw [show ([0, -1, -2, -3, -4, -5, -6] : List ℚ).enum
      = [(0, 0), (1, -1), (2, -2), (3, -3), (4, -4), (5, -5), (6, -6)] from rfl]
  norm_num [List.foldl]

/-- The slope of the 7-entry increasing scenario series is `33/28`. -/
theorem slope_scenario_up :
    slopeOf [⟨2, none, none, none⟩, ⟨3, none, none, none⟩, ⟨5, none, none, none⟩,
      ⟨6, none, none, none⟩, ⟨7, none, none, none⟩, ⟨8, none, none, none⟩,
      ⟨9, some 5, some 2, none⟩] = some (33 / 28) := by
  rw [slopeOf_of_eval
    [⟨2, none, none, none⟩, ⟨3, none, none, none⟩, ⟨5, none, none, none⟩,
      ⟨6, none, none, none⟩, ⟨7, none, none, none⟩, ⟨8, none, none, none⟩,
      ⟨9, some 5, some 2, none⟩]
    [2, 3, 5, 6, 7, 8, 9] 7 rfl rfl (by norm_num [sumIdx_eq, sumIdxSq_eq])]
  rw [sumXY_scenario_up]
  norm_num [sumIdx_eq, sumIdxSq_eq]

/-- The slope of the 7-entry decreasing scenario series is `-1`. -/
theorem slope_scenario_down :
    slopeOf [⟨0, none, none, none⟩, ⟨-1, none, none, none⟩, ⟨-2, none, none, none⟩,
      ⟨-3, none, none, none⟩, ⟨-4, none, none, none⟩, ⟨-5, none, none, none⟩,
      ⟨-6, some 1, some 6, none⟩] = some (-1) := by
  rw [slopeOf_of_eval
    [⟨0, none, none, none⟩, ⟨-1, none, none, none⟩, ⟨-2, none, none, none⟩,
      ⟨-3, none, none, none⟩, ⟨-4, none, none, none⟩, ⟨-5, none, none, none⟩,
      ⟨-6, some 1, some 6, none⟩]
    [0, -1, -2, -3, -4, -5, -6] 7 rfl rfl (by norm_num [sumIdx_eq, sumIdxSq_eq])]
  rw [sumXY_scenario_down]
  norm_num [sumIdx_eq, sumIdxSq_eq]

/-- C1: for any series of at least two entries, the risk flags of
`calculateRiskScores` hold exactly under the spec's threshold
conditions on the data point and the window's least-squares slope
(missing energy/anxiety/irritability default to `0`); and on the two
scenario series — moods `[2,3,5,6,7,8,9]` with last point
`mood 9, energy 5, anxiety 2`, and moods `[0,-1,-2,-3,-4,-5,-6]` with
last point `mood -6, energy 1, anxiety 6` — the flags are
`hypomania = true, depression = false` and
`hypomania = false, depression = true` respectively. -/
theorem c1_risk_flags :
    (∀ (p : MoodEntry) (S : List MoodEntry), 2 ≤ S.length →
      ((calculateRiskScores p S).riskFlags.hypomania = true ↔
        (4 ≤ p.mood ∧ 1 / 10 < olsSlope S ∧ 4 ≤ p.energy.getD 0 ∧
          p.anxiety.getD 0 ≤ 3)) ∧
      ((calculateRiskScores p S).riskFlags.depression = true ↔
        (p.mood ≤ -3 ∧ olsSlope S < -(1 / 10) ∧ p.energy.getD 0 ≤ 2 ∧
          (5 ≤ p.anxiety.getD 0 ∨ 5 ≤ p.irritability.getD 0)))) ∧
    (calculateRiskScores ⟨9, some 5, some 2, none⟩
        [⟨2, none, none, none⟩, ⟨3, none, none, none⟩, ⟨5, none, none, none⟩,
          ⟨6, none, none, none⟩, ⟨7, none, none, none⟩, ⟨8, none, none, none⟩,
          ⟨9, some 5, some 2, none⟩]).riskFlags = ⟨true, false⟩ ∧
    (calculateRiskScores ⟨-6, some 1, some 6, none⟩
        [⟨0, none, none, none⟩, ⟨-1, none, none, none⟩, ⟨-2, none, none, none⟩,
          ⟨-3, none, none, none⟩, ⟨-4, none, none, none⟩, ⟨-5, none, none, none⟩,
          ⟨-6, some 1, some 6, none⟩]).riskFlags = ⟨false, true⟩ := by
  refine ⟨?_, ?_, ?_⟩
  · intro p S h2
    have hs := slopeOf_eq_olsSlope h2
    constructor
    · show (riskFlagsOf p S).hypomania = true ↔ _
      simp [riskFlagsOf, hs, ogt, Bool.and_eq_true, decide_eq_true_eq, and_assoc]
    · show (riskFlagsOf p S).depression = true ↔ _
      simp [riskFlagsOf, hs, olt, Bool.and_eq_true, Bool.or_eq_true, decide_eq_true_eq,
        and_assoc]
  · show riskFlagsOf _ _ = _
    simp only [riskFlagsOf, slope_scenario_up, ogt, olt]
    have hd : ¬((9 : ℚ) ≤ -3) := by norm_num
    simp [decide_eq_false hd, decide_eq_true_eq, Option.getD_some]
    norm_num
  · show riskFlagsOf _ _ = _
    simp only [riskFlagsOf, slope_scenario_down, ogt, olt]
    have hh : ¬(4 ≤ (-6 : ℚ)) := by norm_num
    simp [decide_eq_false hh, decide_eq_true_eq, Option.getD_some]
    norm_num

/-- The z-score block of the source agrees with the spec's description:
guard on `σ > 0` with the population statistics of the entire series,
else `0`. -/
theorem moodZScoreOf_spec (p : MoodEntry) (S : List MoodEntry) (hS : S ≠ []) :
    moodZScoreOf p S =
      if 0 < popStdDev S
      then (((p.mood : ℚ) : ℝ) - ((popMean S : ℚ) : ℝ)) / popStdDev S
      else 0 := by
  have hlen : S.length ≠ 0 := fun h => hS (List.length_eq_zero.1 h)
  have hμ : (S.map (·.mood)).sum / ((S.map (·.mood)).length : ℚ) = popMean S := by
    rw [popMean, listMean]
  simp only [moodZScoreOf, foldl_add_id, List.length_map,
    jsDivN_of_ne hlen ((S.map (·.mood)).sum)]
  rw [show (S.map (·.mood)).sum / (S.length : ℚ) = popMean S from by
    rw [← hμ, List.length_map]]
  simp only [Option.getD_some]
  rw [foldl_add_map (fun m => (m - popMean S) ^ 2) (S.map (·.mood)) 0, zero_add,
    List.map_map]
  rw [show ((S.map (fun e => ((fun m => (m - popMean S) ^ 2) ∘ (·.mood)) e)).sum : ℚ)
      = (S.map (fun e => (e.mood - popMean S) ^ 2)).sum from rfl]
  rw [jsDivN_of_ne hlen]
  rw [show (S.map (fun e => (e.mood - popMean S) ^ 2)).sum / (S.length : ℚ)
      = popVariance S from by rw [popVariance, listMean, List.length_map]]
  rfl

/-- On a uniform series the population variance vanishes. -/
theorem popVariance_uniform {S : List MoodEntry} {m : ℚ} (hS : S ≠ [])
    (hu : ∀ q ∈ S, q.mood = m) : popVariance S = 0 := by
  have hlen : S.length ≠ 0 := fun h => hS (List.length_eq_zero.1 h)
  have hμ : popMean S = m := by
    rw [popMean, listMean]
    have hrep : S.map (·.mood) = List.replicate (S.map (·.mood)).length m := by
      apply List.eq_replicate_of_mem
      intro b hb
      rcases List.mem_map.1 hb with ⟨e, he, rfl⟩
      exact hu e he
    rw [hrep, List.sum_replicate, List.length_replicate, nsmul_eq_mul, List.length_map]
    exact mul_div_cancel_left₀ m (Nat.cast_ne_zero.2 hlen)
  rw [popVariance, listMean, List.sum_eq_zero, zero_div]
  intro x hx
  rcases List.mem_map.1 hx with ⟨e, he, rfl⟩
  rw [hμ, hu e he]
  ring

/-- C2: the `moodZScore` of `calculateRiskScores` is the two-decimal
rounding of `(p.mood − μ)/σ`, with `μ` and `σ` the population mean and
standard deviation of the mood values of the entire series, and `0`
whenever `σ = 0`; in particular any series with a uniform mood value
yields `moodZScore = 0` for any data point. -/
theorem c2_zscore :
    (∀ (p : MoodEntry) (S : List MoodEntry), S ≠ [] →
      (calculateRiskScores p S).moodZScore =
        jsRound2R (if 0 < popStdDev S
          then (((p.mood : ℚ) : ℝ) - ((popMean S : ℚ) : ℝ)) / popStdDev S
          else 0)) ∧
    (∀ (p : MoodEntry) (S : List MoodEntry) (m : ℚ), S ≠ [] → (∀ q ∈ S, q.mood = m) →
      (calculateRiskScores p S).moodZScore = 0) := by
  constructor
  · intro p S hS
    show jsRound2R (moodZScoreOf p S) = _
    rw [moodZScoreOf_spec p S hS]
  · intro p S m hS hu
    show jsRound2R (moodZScoreOf p S) = 0
    rw [moodZScoreOf_spec p S hS]
    have hstd : popStdDev S = 0 := by
      rw [popStdDev, popVariance_uniform hS hu]
      norm_num
    rw [hstd, if_neg (lt_irrefl 0)]
    exact jsRound2R_zero

/-- Witness for C1: the flag characterization instantiated on a
concrete two-entry series. -/
theorem c1_risk_flags_witness :
    2 ≤ ([⟨1, none, none, none⟩, ⟨2, none, none, none⟩] : List MoodEntry).length ∧
    ((((calculateRiskScores ⟨0, none, none, none⟩
          [⟨1, none, none, none⟩, ⟨2, none, none, none⟩]).riskFlags.hypomania = true) ↔
        (4 ≤ (⟨0, none, none, none⟩ : MoodEntry).mood ∧
          1 / 10 < olsSlope [⟨1, none, none, none⟩, ⟨2, none, none, none⟩] ∧
          4 ≤ (⟨0, none, none, none⟩ : MoodEntry).energy.getD 0 ∧
          (⟨0, none, none, none⟩ : MoodEntry).anxiety.getD 0 ≤ 3)) ∧
      (((calculateRiskScores ⟨0, none, none, none⟩
          [⟨1, none, none, none⟩, ⟨2, none, none, none⟩]).riskFlags.depression = true) ↔
        ((⟨0, none, none, none⟩ : MoodEntry).mood ≤ -3 ∧
          olsSlope [⟨1, none, none, none⟩, ⟨2, none, none, none⟩] < -(1 / 10) ∧
          (⟨0, none, none, none⟩ : MoodEntry).energy.getD 0 ≤ 2 ∧
          (5 ≤ (⟨0, none, none, none⟩ : MoodEntry).anxiety.getD 0 ∨
            5 ≤ (⟨0, none, none, none⟩ : MoodEntry).irritability.getD 0)))) :=
  ⟨by decide, c1_risk_flags.1 ⟨0, none, none, none⟩
    [⟨1, none, none, none⟩, ⟨2, none, none, none⟩] (by decide)⟩

/-- Witness for C2: the uniform-series z-score instantiated on a
concrete two-entry constant series. -/
theorem c2_zscore_witness :
    (([⟨4, none, none, none⟩, ⟨4, none, none, none⟩] : List MoodEntry) ≠ [] ∧
      (∀ q ∈ ([⟨4, none, none, none⟩, ⟨4, none, none, none⟩] : List MoodEntry),
        q.mood = 4)) ∧
    (calculateRiskScores ⟨4, none, none, none⟩
        [⟨4, none, none, none⟩, ⟨4, none, none, none⟩]).moodZScore = 0 :=
  ⟨⟨by decide, by decide⟩,
    c2_zscore.2 ⟨4, none, none, none⟩
      [⟨4, none, none, none⟩, ⟨4, none, none, none⟩] 4 (by decide) (by decide)⟩

/-- Witness for C4: the seven-day means instantiated on a concrete
one-entry series. -/
theorem c4_seven_day_means_witness :
    ([⟨2, some 3, none, none⟩] : List MoodEntry) ≠ [] ∧
    (calculateRiskScores ⟨2, some 3, none, none⟩
        [⟨2, some 3, none, none⟩]).sevenDayMeans =
      ⟨some (jsRound2 (listMean
          ((([⟨2, some 3, none, none⟩] : List MoodEntry).rtake 7).map (·.mood)))),
        some (jsRound2 (listMean
          ((([⟨2, some 3, none, none⟩] : List MoodEntry).rtake 7).map
            (fun e => e.energy.getD 0)))),
        some (jsRound2 (listMean
          ((([⟨2, some 3, none, none⟩] : List MoodEntry).rtake 7).map
            (fun e => e.anxiety.getD 0)))),
        some (jsRound2 (listMean
          ((([⟨2, some 3, none, none⟩] : List MoodEntry).rtake 7).map
            (fun e => e.irritability.getD 0))))⟩ :=
  ⟨by decide, c4_seven_day_means ⟨2, some 3, none, none⟩
    [⟨2, some 3, none, none⟩] (by decide)⟩

/-- Witness for C5: the stats characterization instantiated on a
concrete header and two data rows. -/
theorem c5_stats_values_witness :
    numericMoods [(⟨none, some 2⟩ : Row), ⟨none, some 7⟩] ≠ [] ∧
    ((calculateMoodStats [⟨none, none⟩, ⟨none, some 2⟩, ⟨none, some 7⟩]).totalEntries =
        (numericMoods [(⟨none, some 2⟩ : Row), ⟨none, some 7⟩]).length ∧
      (calculateMoodStats [⟨none, none⟩, ⟨none, some 2⟩, ⟨none, some 7⟩]).average =
        jsRound2 (listMean (numericMoods [(⟨none, some 2⟩ : Row), ⟨none, some 7⟩])) ∧
      (calculateMoodStats [⟨none, none⟩, ⟨none, some 2⟩, ⟨none, some 7⟩]).highest ∈
        numericMoods [(⟨none, some 2⟩ : Row), ⟨none, some 7⟩] ∧
      (∀ x ∈ numericMoods [(⟨none, some 2⟩ : Row), ⟨none, some 7⟩],
        x ≤ (calculateMoodStats [⟨none, none⟩, ⟨none, some 2⟩, ⟨none, some 7⟩]).highest) ∧
      (calculateMoodStats [⟨none, none⟩, ⟨none, some 2⟩, ⟨none, some 7⟩]).lowest ∈
        numericMoods [(⟨none, some 2⟩ : Row), ⟨none, some 7⟩] ∧
      (∀ x ∈ numericMoods [(⟨none, some 2⟩ : Row), ⟨none, some 7⟩],
        (calculateMoodStats [⟨none, none⟩, ⟨none, some 2⟩, ⟨none, some 7⟩]).lowest ≤ x)) :=
  ⟨by decide, c5_stats_values.1 ⟨none, none⟩ [⟨none, some 2⟩, ⟨none, some 7⟩] (by decide)⟩

/-- Witness for C7: the permutation invariance instantiated on a
concrete pair of reordered data rows. -/
theorem c7_stats_perm_invariant_witness :
    ([(⟨none, some 1⟩ : Row), ⟨none, some 2⟩]).Perm
        [(⟨none, some 2⟩ : Row), ⟨none, some 1⟩] ∧
    calculateMoodStats [⟨none, none⟩, ⟨none, some 1⟩, ⟨none, some 2⟩] =
      calculateMoodStats [⟨none, none⟩, ⟨none, some 2⟩, ⟨none, some 1⟩] :=
  ⟨by decide, c7_stats_perm_invariant ⟨none, none⟩ [⟨none, some 1⟩, ⟨none, some 2⟩]
    [⟨none, some 2⟩, ⟨none, some 1⟩] (by decide)⟩
